import Mathlib

/-!
Verification of the account-sync job orchestrator
(spaceone/identity/service/job_service.py).

The embedding models the persistent entities (Job, Workspace, ProjectGroup,
Project, ServiceAccount, Secret) as Lean structures, database tables as lists
of records, wall-clock time as an integer number of minutes, and the fallible
external collaborators (secret vault, schema validator, dispatch queue,
discovery plugin) as explicit parameters of type Except or Bool-valued
oracles.  The JobManager status-transition operations live outside the given
source tree; they are modelled from the specification (terminal-state
immutability, section 4.2) and marked as such.
-/

/-- Job lifecycle status, from the Job model referenced by job_service.py. -/
inductive JobStatus where
  | PENDING
  | IN_PROGRESS
  | SUCCESS
  | FAILURE
  | CANCELED
deriving DecidableEq, Repr

/-- Terminal statuses: SUCCESS, FAILURE, CANCELED (spec section 4.2). -/
def JobStatus.isTerminal : JobStatus → Bool
  | .SUCCESS => true
  | .FAILURE => true
  | .CANCELED => true
  | _ => false

/-- A persisted Job record.  Timestamps are minutes since an arbitrary
epoch, so that the 10-minute duplicate window is the literal number 10. -/
structure JobRec where
  job_id : String
  domain_id : String
  workspace_id : String
  trusted_account_id : String
  plugin_id : String
  resource_group : String
  status : JobStatus
  created_at : Int
  finished_at : Option Int
  error : Option String
deriving DecidableEq, Repr

/-- Modelled from the spec: JobManager.change_in_progress_status is not under
src/; spec section 4.2 requires transitions to enforce terminal-state
immutability, so on a terminal job the call is a no-op. -/
def change_in_progress_status (j : JobRec) : JobRec :=
  if j.status.isTerminal then j else { j with status := .IN_PROGRESS }

/-- Modelled from the spec: JobManager.change_success_status is not under
src/; sets SUCCESS and stamps finished_at unless the job is already
terminal (spec section 4.2, MarkSuccess). -/
def change_success_status (j : JobRec) (now : Int) : JobRec :=
  if j.status.isTerminal then j
  else { j with status := .SUCCESS, finished_at := some now }

/-- Modelled from the spec: JobManager.change_error_status is not under
src/; sets FAILURE with the error detail and stamps finished_at unless the
job is already terminal (spec sections 4.2 and 7). -/
def change_error_status (j : JobRec) (e : String) (now : Int) : JobRec :=
  if j.status.isTerminal then j
  else { j with status := .FAILURE, error := some e, finished_at := some now }

/-- Modelled from the spec: JobManager.change_canceled_status (and
change_canceled_by_vo) is not under src/; sets CANCELED and stamps
finished_at unless the job is already terminal (spec section 4.2,
MarkCanceled). -/
def change_canceled_status (j : JobRec) (now : Int) : JobRec :=
  if j.status.isTerminal then j
  else { j with status := .CANCELED, finished_at := some now }

/-- The four transition operations of the job ledger, used to state the
state-machine invariants and to model an external mid-run status write. -/
inductive JobOp where
  | mark_in_progress
  | mark_success
  | mark_error (e : String)
  | mark_canceled
deriving DecidableEq, Repr

def applyJobOp (op : JobOp) (j : JobRec) (now : Int) : JobRec :=
  match op with
  | .mark_in_progress => change_in_progress_status j
  | .mark_success => change_success_status j now
  | .mark_error e => change_error_status j e now
  | .mark_canceled => change_canceled_status j now

/-- JobService._is_job_failed: refetches the job and reports whether its
status is CANCELED or FAILURE (job_service.py lines 466-474). -/
def is_job_failed (j : JobRec) : Bool :=
  j.status == .CANCELED || j.status == .FAILURE

/-- JobService._close_job (job_service.py lines 476-486): if the job is
IN_PROGRESS mark it SUCCESS; if it is FAILURE persist only finished_at;
otherwise do nothing. -/
def close_job (j : JobRec) (now : Int) : JobRec :=
  if j.status = .IN_PROGRESS then change_success_status j now
  else if j.status = .FAILURE then { j with finished_at := some now }
  else j

/-- One node of a discovered record's location path. -/
structure LocationNode where
  name : String
  resource_id : String
deriving DecidableEq, Repr

/-- Trusted-account sync options used by the sync path. -/
structure SyncOptions where
  skip_project_group : Bool
  single_workspace_id : Option String
deriving DecidableEq, Repr

/-- JobService._get_location (job_service.py lines 736-757): with
skip_project_group set, a DOMAIN-scoped account keeps only the first
location node (if any) and a WORKSPACE-scoped account drops the whole
location; otherwise the location is returned as given (the empty DOMAIN
case merely logs and the caller skips the record). -/
def get_location (location : List LocationNode) (resource_group : String)
    (sync_options : SyncOptions) : List LocationNode :=
  if sync_options.skip_project_group then
    if resource_group == "DOMAIN" then
      match location with
      | [] => []
      | x :: _ => [x]
    else []
  else location

/-- A trusted account, restricted to the fields the job path reads. -/
structure TrustedAccountRec where
  trusted_account_id : String
  domain_id : String
  workspace_id : String
  resource_group : String
  provider : String
  trusted_secret_id : Option String
  secret_schema_id : Option String
  sync_options : SyncOptions
deriving DecidableEq, Repr

/-- The dispatch message pushed by create_service_account_job
(job_service.py lines 396-406). -/
structure DispatchMsg where
  job_id : String
  trusted_account_id : String
  trusted_secret_id : Option String
  secret_data : List (String × String)
  workspace_id : String
  domain_id : String
deriving DecidableEq, Repr

/-- The filter of _check_duplicate_job (job_service.py lines 445-453):
other jobs with the same trusted_account_id, workspace_id and domain_id,
status IN_PROGRESS, and a job_id different from the new job's. -/
def dupQuery (domain_id trusted_account_id workspace_id this_job_id : String)
    (j : JobRec) : Bool :=
  j.trusted_account_id == trusted_account_id &&
  j.workspace_id == workspace_id &&
  j.domain_id == domain_id &&
  j.status == .IN_PROGRESS &&
  j.job_id != this_job_id

/-- The loop of _check_duplicate_job (job_service.py lines 459-464): walk
the matches in order; on the first match created within the last 10
minutes return true, cancelling nothing further; cancel each stale match
encountered before that. Returns the duplicate flag and the ids of the
jobs to cancel. -/
def dup_scan (now : Int) : List JobRec → Bool × List String
  | [] => (false, [])
  | j :: rest =>
    if j.created_at > now - 10 then (true, [])
    else
      let r := dup_scan now rest
      (r.1, j.job_id :: r.2)

/-- JobService._check_duplicate_job (job_service.py lines 439-464) over a
job table: filter by dupQuery, scan for a fresh duplicate, and persist the
cancellations of the stale matches examined along the way. -/
def check_duplicate_job (db : List JobRec) (now : Int)
    (domain_id trusted_account_id : String) (this_job : JobRec) :
    Bool × List JobRec :=
  let found := db.filter
    (dupQuery domain_id trusted_account_id this_job.workspace_id this_job.job_id)
  let r := dup_scan now found
  (r.1, db.map (fun j => if r.2.contains j.job_id then change_canceled_status j now else j))

def replaceJob (db : List JobRec) (j : JobRec) : List JobRec :=
  db.map (fun x => if x.job_id == j.job_id then j else x)

/-- The PENDING job inserted by JobManager.create_job on behalf of
create_service_account_job (job_service.py lines 381-388): workspace_id is
the literal star for DOMAIN-scoped accounts, the account's own workspace
otherwise. -/
def mk_new_job (ta : TrustedAccountRec) (now : Int) (new_job_id plugin_id : String) :
    JobRec :=
  { job_id := new_job_id, domain_id := ta.domain_id,
    workspace_id := if ta.resource_group == "DOMAIN" then "*" else ta.workspace_id,
    trusted_account_id := ta.trusted_account_id, plugin_id,
    resource_group := ta.resource_group, status := .PENDING,
    created_at := now, finished_at := none, error := none }

/-- JobService.create_service_account_job (job_service.py lines 336-410).
The secret fetch, the schema validation of the fetched payload and the
queue push are external collaborators, passed in as Except-valued
parameters; a failure fetching or validating the trusted credential
replaces the payload with the empty dict and job creation proceeds.
Returns the final state of the new job, the new job table, and the pushed
dispatch message if any. -/
def create_service_account_job (ta : TrustedAccountRec)
    (fetchResult : Except String (List (String × String)))
    (validateResult : List (String × String) → Except String Unit)
    (pushResult : Except String Unit)
    (db : List JobRec) (now : Int) (new_job_id plugin_id : String) :
    JobRec × List JobRec × Option DispatchMsg :=
  let trusted_secret_data :=
    match fetchResult with
    | .error _ => []
    | .ok d =>
      if d ≠ [] then
        match validateResult d with
        | .ok _ => d
        | .error _ => []
      else d
  let job := mk_new_job ta now new_job_id plugin_id
  let db1 := db ++ [job]
  let dup := check_duplicate_job db1 now ta.domain_id ta.trusted_account_id job
  if dup.1 then
    let job1 := change_error_status job "ERROR_DUPLICATE_JOB" now
    (job1, replaceJob dup.2 job1, none)
  else
    match pushResult with
    | .ok _ =>
      (job, dup.2,
        some { job_id := new_job_id, trusted_account_id := ta.trusted_account_id,
               trusted_secret_id := ta.trusted_secret_id,
               secret_data := trusted_secret_data,
               workspace_id := ta.workspace_id, domain_id := ta.domain_id })
    | .error e =>
      let job1 := change_error_status job e now
      (job1, replaceJob dup.2 job1, none)

/-- The body of JobService.sync_service_accounts (job_service.py lines
231-328) acting on the dispatched job's record, everything before the
final _close_job call.  The plugin invocation and per-record
reconciliation loop are abstracted into an Except-valued outcome (a
raised exception carries its message), and an external mid-run status
write (for example an operator cancel) is modelled as an optional ledger
operation applied between the IN_PROGRESS mark and the post-loop
_is_job_failed re-check. -/
def sync_body (j0 : JobRec) (midOp : Option JobOp)
    (loopResult : Except String Unit) (now : Int) : JobRec :=
  if is_job_failed j0 then change_canceled_status j0 now
  else
    let j1 := change_in_progress_status j0
    let j2 := match midOp with
      | some op => applyJobOp op j1 now
      | none => j1
    match loopResult with
    | .error e => change_error_status j2 e now
    | .ok _ =>
      if is_job_failed j2 then change_canceled_status j2 now
      else change_success_status j2 now

/-- JobService.sync_service_accounts (job_service.py lines 188-334) at the
job-ledger level: the body above followed unconditionally by _close_job. -/
def sync_service_accounts_job (j0 : JobRec) (midOp : Option JobOp)
    (loopResult : Except String Unit) (now : Int) : JobRec :=
  close_job (sync_body j0 midOp loopResult now) now

/-- Fresh entity ids handed out by the managers, derived from a counter. -/
def mkId (kind : String) (n : Nat) : String :=
  kind ++ toString n

/-- A persisted Workspace record. -/
structure WorkspaceRec where
  workspace_id : String
  domain_id : String
  name : String
  references : List String
  trusted_account_id : Option String
  is_managed : Bool
  last_synced_at : Option Int
  tags : List (String × String)
deriving DecidableEq, Repr

/-- JobService._remove_old_reference_id_from_workspace (job_service.py
lines 723-734): for every workspace of the domain holding reference_id in
its references, remove it.  The workspace manager's filter on the
references field is not under src/; it is Modelled from the spec: a
workspace matches when the given reference id is one of its references
(spec section 4.4 migrates the reference away from any workspace that
previously held it). -/
def remove_old_reference_id_from_workspace (domain_id reference_id : String)
    (tbl : List WorkspaceRec) : List WorkspaceRec :=
  tbl.map (fun w =>
    if w.domain_id == domain_id && w.references.contains reference_id then
      { w with references := w.references.erase reference_id }
    else w)

/-- JobService._create_workspace (job_service.py lines 488-528): resolve a
workspace by name in the domain; on a match update trusted_account_id,
is_managed, name when changed, append reference_id to references only when
references is non-empty and does not already hold it, stamp
last_synced_at, then remove the reference id from every workspace of the
domain that holds it; on a miss create the workspace with a theme tag and
references equal to the one-element list of reference_id.  Returns the
value object the source returns (taken before the removal pass), the new
workspace table, and the id counter. -/
def create_workspace (domain_id trusted_account_id : String)
    (location_info : LocationNode) (now : Int) (theme : String) (n : Nat)
    (tbl : List WorkspaceRec) : WorkspaceRec × List WorkspaceRec × Nat :=
  let name := location_info.name
  let reference_id := location_info.resource_id
  match tbl.filter (fun w => w.domain_id == domain_id && w.name == name) with
  | w :: _ =>
    let w' := { w with
      trusted_account_id := some trusted_account_id,
      is_managed := true,
      name := if w.name != name then name else w.name,
      references :=
        if w.references ≠ [] && !(w.references.contains reference_id) then
          w.references ++ [reference_id]
        else w.references,
      last_synced_at := some now }
    let tbl1 := tbl.map (fun x => if x.workspace_id == w.workspace_id then w' else x)
    (w', remove_old_reference_id_from_workspace domain_id reference_id tbl1, n)
  | [] =>
    let w : WorkspaceRec :=
      { workspace_id := mkId "workspace-" n, domain_id, name,
        references := [reference_id],
        trusted_account_id := some trusted_account_id, is_managed := true,
        last_synced_at := some now, tags := [("theme", theme)] }
    (w, tbl ++ [w], n + 1)

/-- A persisted ProjectGroup record. -/
structure ProjectGroupRec where
  project_group_id : String
  domain_id : String
  workspace_id : String
  name : String
  reference_id : String
  is_managed : Bool
  parent_group_id : Option String
  trusted_account_id : Option String
  last_synced_at : Option Int
deriving DecidableEq, Repr

/-- JobService._create_project_group (job_service.py lines 530-583): upsert
keyed by (is_managed, reference_id, domain_id, workspace_id); on a match
update trusted_account_id, parent_group_id when given, name when changed
and last_synced_at; on a miss create. -/
def create_project_group (domain_id workspace_id trusted_account_id : String)
    (location_info : LocationNode) (parent_group_id : Option String)
    (now : Int) (n : Nat) (tbl : List ProjectGroupRec) :
    ProjectGroupRec × List ProjectGroupRec × Nat :=
  let name := location_info.name
  let reference_id := location_info.resource_id
  match tbl.filter (fun g => g.is_managed && g.reference_id == reference_id &&
      g.domain_id == domain_id && g.workspace_id == workspace_id) with
  | g :: _ =>
    let g' := { g with
      trusted_account_id := some trusted_account_id,
      parent_group_id :=
        match parent_group_id with
        | some p => some p
        | none => g.parent_group_id,
      name := if g.name != name then name else g.name,
      last_synced_at := some now }
    (g', tbl.map (fun x => if x.project_group_id == g.project_group_id then g' else x), n)
  | [] =>
    let g : ProjectGroupRec :=
      { project_group_id := mkId "pg-" n, domain_id, workspace_id, name,
        reference_id, is_managed := true, parent_group_id,
        trusted_account_id := some trusted_account_id,
        last_synced_at := some now }
    (g, tbl ++ [g], n + 1)

/-- A persisted Project record. -/
structure ProjectRec where
  project_id : String
  domain_id : String
  workspace_id : String
  project_type : String
  name : String
  reference_id : String
  is_managed : Bool
  project_group_id : Option String
  trusted_account_id : Option String
  last_synced_at : Option Int
deriving DecidableEq, Repr

/-- A discovered record streamed back by the account collector plugin.
Dict payloads are association lists. -/
structure DiscoveredRecord where
  name : String
  resource_id : String
  location : List LocationNode
  data : List (String × String)
  tags : List (String × String)
  secret_data : List (String × String)
  secret_schema_id : Option String
deriving DecidableEq, Repr

/-- JobService._create_project (job_service.py lines 585-629): upsert
keyed by (domain_id, workspace_id, project_type PRIVATE, reference_id,
is_managed); the update dict starts from the filter keys, gains
project_group_id when one was derived, then on a match gains name when
changed, trusted_account_id and last_synced_at; on a miss the created
project carries name and last_synced_at but no trusted_account_id (the
source only adds it on the update path). -/
def create_project (result : DiscoveredRecord)
    (domain_id workspace_id trusted_account_id : String)
    (project_group_id : Option String) (now : Int) (n : Nat)
    (tbl : List ProjectRec) : ProjectRec × List ProjectRec × Nat :=
  let name := result.name
  let reference_id := result.resource_id
  match tbl.filter (fun p => p.domain_id == domain_id &&
      p.workspace_id == workspace_id && p.project_type == "PRIVATE" &&
      p.reference_id == reference_id && p.is_managed) with
  | p :: _ =>
    let p' := { p with
      name := if p.name != name then name else p.name,
      project_group_id :=
        match project_group_id with
        | some g => some g
        | none => p.project_group_id,
      trusted_account_id := some trusted_account_id,
      last_synced_at := some now }
    (p', tbl.map (fun x => if x.project_id == p.project_id then p' else x), n)
  | [] =>
    let p : ProjectRec :=
      { project_id := mkId "project-" n, domain_id, workspace_id,
        project_type := "PRIVATE", name, reference_id, is_managed := true,
        project_group_id, trusted_account_id := none,
        last_synced_at := some now }
    (p, tbl ++ [p], n + 1)

/-- A persisted ServiceAccount record. -/
structure ServiceAccountRec where
  service_account_id : String
  provider : String
  reference_id : String
  is_managed : Bool
  domain_id : String
  workspace_id : String
  project_id : String
  name : String
  data : List (String × String)
  tags : List (String × String)
  trusted_account_id : Option String
  schema_id : Option String
  secret_id : Option String
  last_synced_at : Option Int
deriving DecidableEq, Repr

/-- A secret held by the secret vault on behalf of a service account. -/
structure SecretRec where
  secret_id : String
  data : List (String × String)
  workspace_id : String
  project_id : String
  service_account_id : String
  trusted_secret_id : Option String
  schema_id : Option String
deriving DecidableEq, Repr

/-- The update applied to a matched service account by
_create_service_account (job_service.py lines 664-677): the source first
collects a name change into update_params, then rebinds update_params to
the dict holding only trusted_account_id and last_synced_at, so the
applied update never carries the name. -/
def service_account_match_update (sa : ServiceAccountRec)
    (result_name trusted_account_id : String) (now : Int) : ServiceAccountRec :=
  let update_name := if sa.name != result_name then some result_name else none
  let _ := update_name
  { sa with trusted_account_id := some trusted_account_id,
            last_synced_at := some now }

/-- JobService._create_service_account (job_service.py lines 631-721):
upsert keyed by (provider, reference_id, is_managed, domain_id,
workspace_id, project_id); on a match apply service_account_match_update,
on a miss create with name, data, trusted_account_id, tags and the
record's secret schema id.  When the record carries secret material the
old secret (if any) is deleted, the payload is validated against the
record's schema id (validation is an external oracle; a false verdict
raises, fatal to the record), a fresh secret is created and its id written
back onto the service account. -/
def create_service_account (result : DiscoveredRecord) (project_vo : ProjectRec)
    (trusted_account_id : String) (trusted_secret_id : Option String)
    (provider : String) (now : Int)
    (validateOk : Option String → List (String × String) → Bool) (n : Nat)
    (tbl : List ServiceAccountRec) (secrets : List SecretRec) :
    Except String (ServiceAccountRec × List ServiceAccountRec × List SecretRec × Nat) :=
  let domain_id := project_vo.domain_id
  let workspace_id := project_vo.workspace_id
  let project_id := project_vo.project_id
  let step : ServiceAccountRec × List ServiceAccountRec × Nat :=
    match tbl.filter (fun sa => sa.provider == provider &&
        sa.reference_id == result.resource_id && sa.is_managed &&
        sa.domain_id == domain_id && sa.workspace_id == workspace_id &&
        sa.project_id == project_id) with
    | sa :: _ =>
      let sa' := service_account_match_update sa result.name trusted_account_id now
      (sa', tbl.map (fun x =>
        if x.service_account_id == sa.service_account_id then sa' else x), n)
    | [] =>
      let sa : ServiceAccountRec :=
        { service_account_id := mkId "sa-" n, provider,
          reference_id := result.resource_id, is_managed := true, domain_id,
          workspace_id, project_id, name := result.name, data := result.data,
          tags := result.tags, trusted_account_id := some trusted_account_id,
          schema_id := result.secret_schema_id, secret_id := none,
          last_synced_at := none }
      (sa, tbl ++ [sa], n + 1)
  let sa1 := step.1
  let tbl1 := step.2.1
  let n1 := step.2.2
  if result.secret_data ≠ [] then
    let secrets1 :=
      match sa1.secret_id with
      | some sid => secrets.filter (fun s => s.secret_id ≠ sid)
      | none => secrets
    if validateOk result.secret_schema_id result.secret_data then
      let secret_id := mkId "secret-" n1
      let secrets2 := secrets1 ++
        [{ secret_id, data := result.secret_data, workspace_id, project_id,
           service_account_id := sa1.service_account_id, trusted_secret_id,
           schema_id := result.secret_schema_id }]
      let sa2 := { sa1 with secret_id := some secret_id }
      .ok (sa2, tbl1.map (fun x =>
        if x.service_account_id == sa2.service_account_id then sa2 else x),
        secrets2, n1 + 1)
    else .error "secret data validation failed"
  else .ok (sa1, tbl1, secrets, n1)

/-- The inventory state threaded through the reconciliation of one job. -/
structure Inventory where
  workspaces : List WorkspaceRec
  project_groups : List ProjectGroupRec
  projects : List ProjectRec
  service_accounts : List ServiceAccountRec
  secrets : List SecretRec
  counter : Nat
deriving DecidableEq, Repr

/-- The per-job context of the sync loop: the dispatch parameters, the
trusted account's scope and options, the clock, the workspace theme drawn
for new workspaces and the external schema-validation oracle. -/
structure SyncCtx where
  domain_id : String
  workspace_id : String
  trusted_account_id : String
  trusted_secret_id : Option String
  provider : String
  resource_group : String
  sync_options : SyncOptions
  now : Int
  theme : String
  validateOk : Option String → List (String × String) → Bool

/-- The tail of the per-record loop body (job_service.py lines 284-310)
once a workspace id and the remaining location nodes are fixed: chain the
project groups left to right, upsert the project attached to the last
group, upsert the service account. -/
def reconcile_in_workspace (ctx : SyncCtx) (st : Inventory)
    (result : DiscoveredRecord) (sync_workspace_id : String)
    (location : List LocationNode) : Except String Inventory :=
  let chained := location.foldl
    (fun (acc : Option String × List ProjectGroupRec × Nat) location_info =>
      let r := create_project_group ctx.domain_id sync_workspace_id
        ctx.trusted_account_id location_info acc.1 ctx.now acc.2.2 acc.2.1
      (some r.1.project_group_id, r.2.1, r.2.2))
    (none, st.project_groups, st.counter)
  let pr := create_project result ctx.domain_id sync_workspace_id
    ctx.trusted_account_id chained.1 ctx.now chained.2.2 st.projects
  match create_service_account result pr.1 ctx.trusted_account_id
      ctx.trusted_secret_id ctx.provider ctx.now ctx.validateOk pr.2.2
      st.service_accounts st.secrets with
  | .ok out =>
    .ok { workspaces := st.workspaces, project_groups := chained.2.1,
          projects := pr.2.1, service_accounts := out.2.1,
          secrets := out.2.2.1, counter := out.2.2.2 }
  | .error e => .error e

/-- One iteration of the record loop of sync_service_accounts
(job_service.py lines 258-310).  For a DOMAIN-scoped account: resolve the
single configured workspace when single_workspace_id is set, otherwise pop
the first derived location node into _create_workspace, and when the
derived location is empty skip the record (the loop's continue).  For a
WORKSPACE-scoped account the dispatched workspace id is used as is. -/
def process_record (ctx : SyncCtx) (st : Inventory)
    (result : DiscoveredRecord) : Except String Inventory :=
  let location := get_location result.location ctx.resource_group ctx.sync_options
  if ctx.resource_group == "DOMAIN" then
    match ctx.sync_options.single_workspace_id with
    | some wid =>
      match st.workspaces.find? (fun w => w.workspace_id == wid &&
          w.domain_id == ctx.domain_id) with
      | some w => reconcile_in_workspace ctx st result w.workspace_id location
      | none => .error "ERROR_NOT_FOUND workspace"
    | none =>
      match location with
      | [] => .ok st
      | location_info :: rest =>
        let r := create_workspace ctx.domain_id ctx.trusted_account_id
          location_info ctx.now ctx.theme st.counter st.workspaces
        reconcile_in_workspace ctx
          { st with workspaces := r.2.1, counter := r.2.2 }
          result r.1.workspace_id rest
  else
    reconcile_in_workspace ctx st result ctx.workspace_id location

/-- The record loop of sync_service_accounts: records are processed in
order and a failure reconciling one record aborts the job (fatal, spec
section 4.3 step 5). -/
def sync_records (ctx : SyncCtx) (st : Inventory) :
    List DiscoveredRecord → Except String Inventory
  | [] => .ok st
  | r :: rest =>
    match process_record ctx st r with
    | .ok st' => sync_records ctx st' rest
    | .error e => .error e

/-- Claim C4: job status transitions are strictly forward.  A transition
operation applied to a terminal job is a no-op (never a silent overwrite),
a job exits IN_PROGRESS only into SUCCESS, FAILURE or CANCELED, and in
particular the executor's post-run change_canceled_status call issued when
_is_job_failed already reports FAILURE leaves the job in FAILURE. -/
theorem C4_terminal_status_immutable :
    (∀ (j : JobRec) (op : JobOp) (now : Int),
      j.status.isTerminal = true → applyJobOp op j now = j)
    ∧ (∀ (j : JobRec) (op : JobOp) (now : Int),
      j.status = .IN_PROGRESS →
        (applyJobOp op j now).status = .IN_PROGRESS ∨
        (applyJobOp op j now).status = .SUCCESS ∨
        (applyJobOp op j now).status = .FAILURE ∨
        (applyJobOp op j now).status = .CANCELED)
    ∧ (∀ (j : JobRec) (now : Int),
      is_job_failed j = true → j.status = .FAILURE →
        (change_canceled_status j now).status = .FAILURE) := by
  refine ⟨?_, ?_, ?_⟩
  · intro j op now h
    cases op <;>
      simp [applyJobOp, change_in_progress_status, change_success_status,
        change_error_status, change_canceled_status, h]
  · intro j op now h
    cases op <;>
      simp [applyJobOp, change_in_progress_status, change_success_status,
        change_error_status, change_canceled_status, h, JobStatus.isTerminal]
  · intro j now _ h
    simp [change_canceled_status, h, JobStatus.isTerminal]

/-- Witness for C4 at concrete inputs: a FAILURE job is untouched by the
cancel transition, and an IN_PROGRESS job exits only into a terminal
status under the success transition. -/
theorem C4_terminal_status_immutable_witness :
    applyJobOp .mark_canceled
      ⟨"job-1", "dom-1", "*", "ta-1", "plugin-1", "DOMAIN",
        .FAILURE, 0, some 3, some "boom"⟩ 9 =
      ⟨"job-1", "dom-1", "*", "ta-1", "plugin-1", "DOMAIN",
        .FAILURE, 0, some 3, some "boom"⟩
    ∧ ((applyJobOp .mark_success
      ⟨"job-2", "dom-1", "*", "ta-1", "plugin-1", "DOMAIN",
        .IN_PROGRESS, 0, none, none⟩ 9).status = .IN_PROGRESS ∨
       (applyJobOp .mark_success
      ⟨"job-2", "dom-1", "*", "ta-1", "plugin-1", "DOMAIN",
        .IN_PROGRESS, 0, none, none⟩ 9).status = .SUCCESS ∨
       (applyJobOp .mark_success
      ⟨"job-2", "dom-1", "*", "ta-1", "plugin-1", "DOMAIN",
        .IN_PROGRESS, 0, none, none⟩ 9).status = .FAILURE ∨
       (applyJobOp .mark_success
      ⟨"job-2", "dom-1", "*", "ta-1", "plugin-1", "DOMAIN",
        .IN_PROGRESS, 0, none, none⟩ 9).status = .CANCELED)
    ∧ (change_canceled_status
      ⟨"job-3", "dom-1", "*", "ta-1", "plugin-1", "DOMAIN",
        .FAILURE, 0, some 3, some "boom"⟩ 9).status = .FAILURE := by
  refine ⟨?_, ?_, ?_⟩
  · exact C4_terminal_status_immutable.1 _ .mark_canceled 9 (by decide)
  · exact C4_terminal_status_immutable.2.1 _ .mark_success 9 (by decide)
  · exact C4_terminal_status_immutable.2.2 _ 9 (by decide) (by decide)

/-- Claim C7: _get_location with skip_project_group set returns, for a
DOMAIN-scoped account on a non-empty location, the one-node location
holding only the first node, and for a WORKSPACE-scoped account the empty
location. -/
theorem C7_get_location_skip_project_group
    (loc : List LocationNode) (opts : SyncOptions)
    (hskip : opts.skip_project_group = true) :
    (∀ (x : LocationNode) (xs : List LocationNode),
      loc = x :: xs → get_location loc "DOMAIN" opts = [x])
    ∧ get_location loc "WORKSPACE" opts = [] := by
  constructor
  · intro x xs hx
    subst hx
    simp [get_location, hskip]
  · simp [get_location, hskip]

/-- Witness for C7 at a concrete 3-node location. -/
theorem C7_get_location_skip_project_group_witness :
    get_location
      [⟨"ws-a", "w1"⟩, ⟨"grp-b", "g1"⟩, ⟨"grp-c", "g2"⟩]
      "DOMAIN" ⟨true, none⟩ = [⟨"ws-a", "w1"⟩]
    ∧ get_location
      [⟨"ws-a", "w1"⟩, ⟨"grp-b", "g1"⟩, ⟨"grp-c", "g2"⟩]
      "WORKSPACE" ⟨true, none⟩ = [] := by
  constructor
  · exact (C7_get_location_skip_project_group _ ⟨true, none⟩ rfl).1
      ⟨"ws-a", "w1"⟩ [⟨"grp-b", "g1"⟩, ⟨"grp-c", "g2"⟩] rfl
  · exact (C7_get_location_skip_project_group
      [⟨"ws-a", "w1"⟩, ⟨"grp-b", "g1"⟩, ⟨"grp-c", "g2"⟩] ⟨true, none⟩ rfl).2

theorem dup_scan_fst_eq (now : Int) (l : List JobRec) :
    (dup_scan now l).1 = l.any (fun j => decide (j.created_at > now - 10)) := by
  induction l with
  | nil => simp [dup_scan]
  | cons j rest ih =>
    by_cases h : j.created_at > now - 10
    · simp [dup_scan, h]
    · simp [dup_scan, h, ih]

theorem dup_scan_snd_eq (now : Int) (l : List JobRec) :
    (dup_scan now l).2 =
      (l.takeWhile (fun j => decide (j.created_at ≤ now - 10))).map JobRec.job_id := by
  induction l with
  | nil => simp [dup_scan]
  | cons j rest ih =>
    by_cases h : j.created_at > now - 10
    · have h2 : ¬ j.created_at ≤ now - 10 := by omega
      simp [dup_scan, h, List.takeWhile_cons, h2]
    · have h2 : j.created_at ≤ now - 10 := by omega
      simp [dup_scan, h, List.takeWhile_cons, h2, ih]

theorem change_canceled_status_job_id (j : JobRec) (now : Int) :
    (change_canceled_status j now).job_id = j.job_id := by
  unfold change_canceled_status
  split <;> rfl

theorem change_canceled_status_status (j : JobRec) (now : Int)
    (h : j.status.isTerminal = false) :
    (change_canceled_status j now).status = .CANCELED := by
  simp [change_canceled_status, h]

/-- Claim C1: _check_duplicate_job reports a duplicate exactly when some
other IN_PROGRESS job on the same (trusted_account_id, workspace_id,
domain_id) was created within the last 10 minutes; every stale match it
examines (the matches before the first fresh one) is transitioned to
CANCELED; and in create_service_account_job a detected duplicate marks the
new job FAILURE with the duplicate-job error and never pushes it, while
the absence of a fresh match pushes the new job to the dispatch queue. -/
theorem C1_duplicate_job_check :
    (∀ (db : List JobRec) (now : Int) (d t : String) (tj : JobRec),
      (check_duplicate_job db now d t tj).1 = true ↔
        ∃ m ∈ db.filter (dupQuery d t tj.workspace_id tj.job_id),
          m.created_at > now - 10)
    ∧ (∀ (db : List JobRec) (now : Int) (d t : String) (tj : JobRec),
      (db.map JobRec.job_id).Nodup →
      ∀ m ∈ (db.filter (dupQuery d t tj.workspace_id tj.job_id)).takeWhile
          (fun x => decide (x.created_at ≤ now - 10)),
      ∀ j ∈ (check_duplicate_job db now d t tj).2,
        j.job_id = m.job_id → j.status = .CANCELED)
    ∧ (∀ (ta : TrustedAccountRec)
        (fetchResult : Except String (List (String × String)))
        (validateResult : List (String × String) → Except String Unit)
        (db : List JobRec) (now : Int) (jid pid : String),
      ((∃ m ∈ db.filter (dupQuery ta.domain_id ta.trusted_account_id
            (if ta.resource_group == "DOMAIN" then "*" else ta.workspace_id) jid),
          m.created_at > now - 10) →
        (create_service_account_job ta fetchResult validateResult (.ok ())
          db now jid pid).1.status = .FAILURE ∧
        (create_service_account_job ta fetchResult validateResult (.ok ())
          db now jid pid).1.error = some "ERROR_DUPLICATE_JOB" ∧
        (create_service_account_job ta fetchResult validateResult (.ok ())
          db now jid pid).2.2 = none)
      ∧ ((∀ m ∈ db.filter (dupQuery ta.domain_id ta.trusted_account_id
            (if ta.resource_group == "DOMAIN" then "*" else ta.workspace_id) jid),
          m.created_at ≤ now - 10) →
        ∃ msg, (create_service_account_job ta fetchResult validateResult (.ok ())
          db now jid pid).2.2 = some msg ∧ msg.job_id = jid)) := by
  have hfst : ∀ (db : List JobRec) (now : Int) (d t : String) (tj : JobRec),
      (check_duplicate_job db now d t tj).1 = true ↔
        ∃ m ∈ db.filter (dupQuery d t tj.workspace_id tj.job_id),
          m.created_at > now - 10 := by
    intro db now d t tj
    show (dup_scan now (db.filter
      (dupQuery d t tj.workspace_id tj.job_id))).1 = true ↔ _
    rw [dup_scan_fst_eq, List.any_eq_true]
    simp
  refine ⟨hfst, ?_, ?_⟩
  · intro db now d t tj hnodup m hm j hj hjid
    have hmf : m ∈ db.filter (dupQuery d t tj.workspace_id tj.job_id) :=
      List.takeWhile_subset _ hm
    have hmdb : m ∈ db := (List.mem_filter.1 hmf).1
    have hq : dupQuery d t tj.workspace_id tj.job_id m = true :=
      (List.mem_filter.1 hmf).2
    have hmstat : m.status = .IN_PROGRESS := by
      simp only [dupQuery, Bool.and_eq_true, beq_iff_eq] at hq
      exact hq.1.2
    have hmid : m.job_id ∈ (dup_scan now (db.filter
        (dupQuery d t tj.workspace_id tj.job_id))).2 := by
      rw [dup_scan_snd_eq]
      exact List.mem_map_of_mem _ hm
    have hj' : j ∈ db.map (fun x =>
        if (dup_scan now (db.filter
            (dupQuery d t tj.workspace_id tj.job_id))).2.contains x.job_id
        then change_canceled_status x now else x) := hj
    obtain ⟨x, hx, hfx⟩ := List.mem_map.1 hj'
    cases hcb : (dup_scan now (db.filter
        (dupQuery d t tj.workspace_id tj.job_id))).2.contains x.job_id with
    | false =>
      rw [hcb] at hfx
      simp only [Bool.false_eq_true, if_false] at hfx
      exfalso
      have hxid : x.job_id = m.job_id := by rw [hfx]; exact hjid
      rw [hxid] at hcb
      have hct : (dup_scan now (db.filter
          (dupQuery d t tj.workspace_id tj.job_id))).2.contains m.job_id = true := by
        simpa [List.contains] using hmid
      rw [hct] at hcb
      simp at hcb
    | true =>
      rw [hcb] at hfx
      simp only [if_true] at hfx
      have hxid : x.job_id = m.job_id := by
        rw [← hfx] at hjid
        rwa [change_canceled_status_job_id] at hjid
      have hxm : x = m := List.inj_on_of_nodup_map hnodup hx hmdb hxid
      subst hxm
      rw [← hfx]
      exact change_canceled_status_status x now (by rw [hmstat]; rfl)
  · intro ta fetchResult validateResult db now jid pid
    have hjob_ws : (mk_new_job ta now jid pid).workspace_id =
        (if ta.resource_group == "DOMAIN" then "*" else ta.workspace_id) := rfl
    have hjob_id : (mk_new_job ta now jid pid).job_id = jid := rfl
    have hjf : dupQuery ta.domain_id ta.trusted_account_id
        (if ta.resource_group == "DOMAIN" then "*" else ta.workspace_id) jid
        (mk_new_job ta now jid pid) = false := by
      simp [dupQuery, mk_new_job]
    constructor
    · rintro ⟨m, hm, hfresh⟩
      have hdup : (check_duplicate_job (db ++ [mk_new_job ta now jid pid]) now
          ta.domain_id ta.trusted_account_id (mk_new_job ta now jid pid)).1 = true := by
        rw [hfst]
        refine ⟨m, ?_, hfresh⟩
        rw [hjob_ws, hjob_id, List.filter_append]
        exact List.mem_append_left _ hm
      have hred : create_service_account_job ta fetchResult validateResult (.ok ())
          db now jid pid =
          (change_error_status (mk_new_job ta now jid pid) "ERROR_DUPLICATE_JOB" now,
           replaceJob (check_duplicate_job (db ++ [mk_new_job ta now jid pid]) now
             ta.domain_id ta.trusted_account_id (mk_new_job ta now jid pid)).2
             (change_error_status (mk_new_job ta now jid pid) "ERROR_DUPLICATE_JOB" now),
           none) := by
        simp only [create_service_account_job, hdup]
        simp
      refine ⟨?_, ?_, ?_⟩ <;>
        rw [hred] <;>
        simp [change_error_status, mk_new_job, JobStatus.isTerminal]
    · intro hall
      have hdup : (check_duplicate_job (db ++ [mk_new_job ta now jid pid]) now
          ta.domain_id ta.trusted_account_id (mk_new_job ta now jid pid)).1 = false := by
        cases hv : (check_duplicate_job (db ++ [mk_new_job ta now jid pid]) now
            ta.domain_id ta.trusted_account_id (mk_new_job ta now jid pid)).1 with
        | false => rfl
        | true =>
          exfalso
          obtain ⟨m, hm, hfresh⟩ := (hfst _ _ _ _ _).1 hv
          rw [hjob_ws, hjob_id, List.filter_append] at hm
          rcases List.mem_append.1 hm with h1 | h2
          · have := hall m h1
            omega
          · have h3 := List.mem_filter.1 h2
            have hm1 : m = mk_new_job ta now jid pid := by
              simpa using h3.1
            rw [hm1, hjf] at h3
            simp at h3
      refine ⟨{ job_id := jid, trusted_account_id := ta.trusted_account_id,
                trusted_secret_id := ta.trusted_secret_id,
                secret_data := match fetchResult with
                  | .error _ => []
                  | .ok d =>
                    if d ≠ [] then
                      match validateResult d with
                      | .ok _ => d
                      | .error _ => []
                    else d,
                workspace_id := ta.workspace_id,
                domain_id := ta.domain_id }, ?_, rfl⟩
      simp only [create_service_account_job, hdup]
      simp

/-- Witness for C1 at concrete inputs: a match created 5 minutes ago makes
the check report a duplicate; a match created 15 minutes ago is examined,
found stale and canceled; a fresh match makes create_service_account_job
fail the new job with the duplicate error and push nothing; with no match
at all the new job is pushed. -/
theorem C1_duplicate_job_check_witness :
    (check_duplicate_job
      [⟨"job-0", "dom", "*", "ta", "p", "DOMAIN", .IN_PROGRESS, 15, none, none⟩]
      20 "dom" "ta"
      ⟨"job-1", "dom", "*", "ta", "p", "DOMAIN", .PENDING, 20, none, none⟩).1 = true
    ∧ (⟨"job-0", "dom", "*", "ta", "p", "DOMAIN", .CANCELED, 5, some 20, none⟩
        : JobRec).status = .CANCELED
    ∧ ((create_service_account_job
        ⟨"ta", "dom", "ws-1", "DOMAIN", "aws", some "ts-1", some "sch", ⟨false, none⟩⟩
        (.ok [("k", "v")]) (fun _ => .ok ()) (.ok ())
        [⟨"job-0", "dom", "*", "ta", "p", "DOMAIN", .IN_PROGRESS, 15, none, none⟩]
        20 "job-9" "p").1.status = .FAILURE ∧
      (create_service_account_job
        ⟨"ta", "dom", "ws-1", "DOMAIN", "aws", some "ts-1", some "sch", ⟨false, none⟩⟩
        (.ok [("k", "v")]) (fun _ => .ok ()) (.ok ())
        [⟨"job-0", "dom", "*", "ta", "p", "DOMAIN", .IN_PROGRESS, 15, none, none⟩]
        20 "job-9" "p").1.error = some "ERROR_DUPLICATE_JOB" ∧
      (create_service_account_job
        ⟨"ta", "dom", "ws-1", "DOMAIN", "aws", some "ts-1", some "sch", ⟨false, none⟩⟩
        (.ok [("k", "v")]) (fun _ => .ok ()) (.ok ())
        [⟨"job-0", "dom", "*", "ta", "p", "DOMAIN", .IN_PROGRESS, 15, none, none⟩]
        20 "job-9" "p").2.2 = none)
    ∧ (∃ msg, (create_service_account_job
        ⟨"ta", "dom", "ws-1", "DOMAIN", "aws", some "ts-1", some "sch", ⟨false, none⟩⟩
        (.ok [("k", "v")]) (fun _ => .ok ()) (.ok ())
        [] 20 "job-9" "p").2.2 = some msg ∧ msg.job_id = "job-9") := by
  refine ⟨?_, ?_, ?_, ?_⟩
  · exact (C1_duplicate_job_check.1 _ 20 "dom" "ta" _).2
      ⟨⟨"job-0", "dom", "*", "ta", "p", "DOMAIN", .IN_PROGRESS, 15, none, none⟩,
        by decide, by decide⟩
  · exact C1_duplicate_job_check.2.1
      [⟨"job-0", "dom", "*", "ta", "p", "DOMAIN", .IN_PROGRESS, 5, none, none⟩]
      20 "dom" "ta"
      ⟨"job-1", "dom", "*", "ta", "p", "DOMAIN", .PENDING, 20, none, none⟩
      (by decide)
      ⟨"job-0", "dom", "*", "ta", "p", "DOMAIN", .IN_PROGRESS, 5, none, none⟩
      (by decide)
      ⟨"job-0", "dom", "*", "ta", "p", "DOMAIN", .CANCELED, 5, some 20, none⟩
      (by decide) (by decide)
  · exact (C1_duplicate_job_check.2.2
      ⟨"ta", "dom", "ws-1", "DOMAIN", "aws", some "ts-1", some "sch", ⟨false, none⟩⟩
      (.ok [("k", "v")]) (fun _ => .ok ())
      [⟨"job-0", "dom", "*", "ta", "p", "DOMAIN", .IN_PROGRESS, 15, none, none⟩]
      20 "job-9" "p").1
      ⟨⟨"job-0", "dom", "*", "ta", "p", "DOMAIN", .IN_PROGRESS, 15, none, none⟩,
        by decide, by decide⟩
  · exact (C1_duplicate_job_check.2.2
      ⟨"ta", "dom", "ws-1", "DOMAIN", "aws", some "ts-1", some "sch", ⟨false, none⟩⟩
      (.ok [("k", "v")]) (fun _ => .ok ())
      [] 20 "job-9" "p").2 (by simp)

theorem change_error_status_job_id (j : JobRec) (e : String) (now : Int) :
    (change_error_status j e now).job_id = j.job_id := by
  unfold change_error_status
  split <;> rfl

theorem exists_job_id_map (L : List JobRec) (f : JobRec → JobRec) (jid : String)
    (hf : ∀ x, (f x).job_id = x.job_id ∨ (f x).job_id = jid)
    (h : ∃ x ∈ L, x.job_id = jid) :
    ∃ j ∈ L.map f, j.job_id = jid := by
  obtain ⟨x, hx, hxid⟩ := h
  refine ⟨f x, List.mem_map_of_mem f hx, ?_⟩
  rcases hf x with h1 | h1 <;> rw [h1]
  exact hxid

/-- Claim C8: in create_service_account_job, a failure fetching the
trusted credential, or a failure schema-validating a successfully fetched
non-empty payload, does not abort job creation: the new job is still
inserted in the job table, and absent a fresh duplicate it is pushed to
the dispatch queue with secret_data equal to the empty dict. -/
theorem C8_secret_fetch_failure_recoverable
    (ta : TrustedAccountRec)
    (fetchResult : Except String (List (String × String)))
    (validateResult : List (String × String) → Except String Unit)
    (db : List JobRec) (now : Int) (jid pid : String)
    (hfail : (∃ e, fetchResult = .error e) ∨
      (∃ d e, fetchResult = .ok d ∧ d ≠ [] ∧ validateResult d = .error e)) :
    (∃ j ∈ (create_service_account_job ta fetchResult validateResult (.ok ())
        db now jid pid).2.1, j.job_id = jid)
    ∧ ((∀ m ∈ db.filter (dupQuery ta.domain_id ta.trusted_account_id
          (if ta.resource_group == "DOMAIN" then "*" else ta.workspace_id) jid),
        m.created_at ≤ now - 10) →
      ∃ msg, (create_service_account_job ta fetchResult validateResult (.ok ())
          db now jid pid).2.2 = some msg ∧ msg.secret_data = [] ∧
        msg.job_id = jid) := by
  have hjob_ws : (mk_new_job ta now jid pid).workspace_id =
      (if ta.resource_group == "DOMAIN" then "*" else ta.workspace_id) := rfl
  have hjob_id : (mk_new_job ta now jid pid).job_id = jid := rfl
  have hjf : dupQuery ta.domain_id ta.trusted_account_id
      (if ta.resource_group == "DOMAIN" then "*" else ta.workspace_id) jid
      (mk_new_job ta now jid pid) = false := by
    simp [dupQuery, mk_new_job]
  constructor
  · have hbase : ∃ x ∈ db ++ [mk_new_job ta now jid pid], x.job_id = jid :=
      ⟨mk_new_job ta now jid pid, by simp, rfl⟩
    have hM : ∃ j ∈ (check_duplicate_job (db ++ [mk_new_job ta now jid pid]) now
        ta.domain_id ta.trusted_account_id (mk_new_job ta now jid pid)).2,
        j.job_id = jid := by
      apply exists_job_id_map _ _ _ ?_ hbase
      intro x
      left
      show (if _ then change_canceled_status x now else x).job_id = x.job_id
      split
      · exact change_canceled_status_job_id x now
      · rfl
    cases hd : (check_duplicate_job (db ++ [mk_new_job ta now jid pid]) now
        ta.domain_id ta.trusted_account_id (mk_new_job ta now jid pid)).1 with
    | true =>
      have hred : (create_service_account_job ta fetchResult validateResult (.ok ())
          db now jid pid).2.1
          = replaceJob (check_duplicate_job (db ++ [mk_new_job ta now jid pid]) now
              ta.domain_id ta.trusted_account_id (mk_new_job ta now jid pid)).2
              (change_error_status (mk_new_job ta now jid pid)
                "ERROR_DUPLICATE_JOB" now) := by
        simp only [create_service_account_job, hd]
        simp
      rw [hred]
      unfold replaceJob
      apply exists_job_id_map _ _ _ ?_ hM
      intro x
      by_cases hx : x.job_id ==
          (change_error_status (mk_new_job ta now jid pid)
            "ERROR_DUPLICATE_JOB" now).job_id
      · right
        rw [if_pos hx, change_error_status_job_id]
        exact hjob_id
      · left
        rw [if_neg hx]
    | false =>
      have hred : (create_service_account_job ta fetchResult validateResult (.ok ())
          db now jid pid).2.1
          = (check_duplicate_job (db ++ [mk_new_job ta now jid pid]) now
              ta.domain_id ta.trusted_account_id (mk_new_job ta now jid pid)).2 := by
        simp only [create_service_account_job, hd]
        simp
      rw [hred]
      exact hM
  · intro hall
    have hdup : (check_duplicate_job (db ++ [mk_new_job ta now jid pid]) now
        ta.domain_id ta.trusted_account_id (mk_new_job ta now jid pid)).1 = false := by
      cases hv : (check_duplicate_job (db ++ [mk_new_job ta now jid pid]) now
          ta.domain_id ta.trusted_account_id (mk_new_job ta now jid pid)).1 with
      | false => rfl
      | true =>
        exfalso
        obtain ⟨m, hm, hfresh⟩ := (C1_duplicate_job_check.1 _ _ _ _ _).1 hv
        rw [hjob_ws, hjob_id, List.filter_append] at hm
        rcases List.mem_append.1 hm with h1 | h2
        · have := hall m h1
          omega
        · have h3 := List.mem_filter.1 h2
          have hm1 : m = mk_new_job ta now jid pid := by
            simpa using h3.1
          rw [hm1, hjf] at h3
          simp at h3
    rcases hfail with ⟨e, he⟩ | ⟨d, e, hfd, hdne, hvd⟩
    · subst he
      refine ⟨{ job_id := jid, trusted_account_id := ta.trusted_account_id,
                trusted_secret_id := ta.trusted_secret_id, secret_data := [],
                workspace_id := ta.workspace_id,
                domain_id := ta.domain_id }, ?_, rfl, rfl⟩
      simp only [create_service_account_job, hdup]
      simp
    · subst hfd
      refine ⟨{ job_id := jid, trusted_account_id := ta.trusted_account_id,
                trusted_secret_id := ta.trusted_secret_id, secret_data := [],
                workspace_id := ta.workspace_id,
                domain_id := ta.domain_id }, ?_, rfl, rfl⟩
      simp only [create_service_account_job, hdup]
      simp [hdne, hvd]

/-- Witness for C8 at concrete inputs, one per failure trigger: with the
secret vault failing, and separately with the fetch succeeding on a
non-empty payload whose schema validation fails, the job is created and
pushed with an empty secret payload. -/
theorem C8_secret_fetch_failure_recoverable_witness :
    (∃ j ∈ (create_service_account_job
        ⟨"ta", "dom", "ws-1", "DOMAIN", "aws", some "ts-1", some "sch", ⟨false, none⟩⟩
        (.error "vault down") (fun _ => .ok ()) (.ok ()) [] 20 "job-9" "p").2.1,
      j.job_id = "job-9")
    ∧ (∃ msg, (create_service_account_job
        ⟨"ta", "dom", "ws-1", "DOMAIN", "aws", some "ts-1", some "sch", ⟨false, none⟩⟩
        (.error "vault down") (fun _ => .ok ()) (.ok ()) [] 20 "job-9" "p").2.2 =
        some msg ∧ msg.secret_data = [] ∧ msg.job_id = "job-9")
    ∧ (∃ j ∈ (create_service_account_job
        ⟨"ta", "dom", "ws-1", "DOMAIN", "aws", some "ts-1", some "sch", ⟨false, none⟩⟩
        (.ok [("k", "v")]) (fun _ => .error "schema mismatch") (.ok ())
        [] 20 "job-9" "p").2.1,
      j.job_id = "job-9")
    ∧ (∃ msg, (create_service_account_job
        ⟨"ta", "dom", "ws-1", "DOMAIN", "aws", some "ts-1", some "sch", ⟨false, none⟩⟩
        (.ok [("k", "v")]) (fun _ => .error "schema mismatch") (.ok ())
        [] 20 "job-9" "p").2.2 =
        some msg ∧ msg.secret_data = [] ∧ msg.job_id = "job-9") := by
  refine ⟨?_, ?_, ?_, ?_⟩
  · exact (C8_secret_fetch_failure_recoverable
      ⟨"ta", "dom", "ws-1", "DOMAIN", "aws", some "ts-1", some "sch", ⟨false, none⟩⟩
      (.error "vault down") (fun _ => .ok ()) [] 20 "job-9" "p"
      (Or.inl ⟨"vault down", rfl⟩)).1
  · exact (C8_secret_fetch_failure_recoverable
      ⟨"ta", "dom", "ws-1", "DOMAIN", "aws", some "ts-1", some "sch", ⟨false, none⟩⟩
      (.error "vault down") (fun _ => .ok ()) [] 20 "job-9" "p"
      (Or.inl ⟨"vault down", rfl⟩)).2 (by simp)
  · exact (C8_secret_fetch_failure_recoverable
      ⟨"ta", "dom", "ws-1", "DOMAIN", "aws", some "ts-1", some "sch", ⟨false, none⟩⟩
      (.ok [("k", "v")]) (fun _ => .error "schema mismatch") [] 20 "job-9" "p"
      (Or.inr ⟨[("k", "v")], "schema mismatch", rfl, by decide, rfl⟩)).1
  · exact (C8_secret_fetch_failure_recoverable
      ⟨"ta", "dom", "ws-1", "DOMAIN", "aws", some "ts-1", some "sch", ⟨false, none⟩⟩
      (.ok [("k", "v")]) (fun _ => .error "schema mismatch") [] 20 "job-9" "p"
      (Or.inr ⟨[("k", "v")], "schema mismatch", rfl, by decide, rfl⟩)).2 (by simp)

/-- Claim C5: _close_job is invoked on every execution path of
sync_service_accounts — the executor is, by construction of the source's
control flow, the body followed unconditionally by _close_job — and it
marks an IN_PROGRESS job SUCCESS, only stamps finished_at on a FAILURE
job, and changes nothing for any other status; consequently even the
exception path leaves a dispatched PENDING job terminal and
timestamped. -/
theorem C5_close_job_on_every_path :
    (∀ (j : JobRec) (now : Int), j.status = .IN_PROGRESS →
      close_job j now = change_success_status j now ∧
      (close_job j now).status = .SUCCESS)
    ∧ (∀ (j : JobRec) (now : Int), j.status = .FAILURE →
      close_job j now = { j with finished_at := some now })
    ∧ (∀ (j : JobRec) (now : Int), j.status ≠ .IN_PROGRESS → j.status ≠ .FAILURE →
      close_job j now = j)
    ∧ (∀ (j0 : JobRec) (midOp : Option JobOp) (loopResult : Except String Unit)
        (now : Int),
      sync_service_accounts_job j0 midOp loopResult now =
        close_job (sync_body j0 midOp loopResult now) now)
    ∧ (∀ (j0 : JobRec) (midOp : Option JobOp) (e : String) (now : Int),
      j0.status = .PENDING →
      (sync_service_accounts_job j0 midOp (.error e) now).status.isTerminal = true ∧
      (sync_service_accounts_job j0 midOp (.error e) now).finished_at = some now) := by
  refine ⟨?_, ?_, ?_, ?_, ?_⟩
  · intro j now h
    constructor
    · simp [close_job, h]
    · simp [close_job, change_success_status, h, JobStatus.isTerminal]
  · intro j now h
    simp [close_job, h]
  · intro j now h1 h2
    simp [close_job, h1, h2]
  · intro j0 midOp loopResult now
    rfl
  · intro j0 midOp e now h0
    rcases midOp with _ | op
    · constructor <;>
        simp [sync_service_accounts_job, sync_body, is_job_failed, h0,
          change_in_progress_status, change_error_status, close_job,
          JobStatus.isTerminal]
    · cases op <;> constructor <;>
        simp [sync_service_accounts_job, sync_body, is_job_failed, applyJobOp, h0,
          change_in_progress_status, change_success_status, change_error_status,
          change_canceled_status, close_job, JobStatus.isTerminal]

/-- Witness for C5 at concrete inputs: the three close_job behaviors and a
failing run of the executor on a PENDING job. -/
theorem C5_close_job_on_every_path_witness :
    (close_job ⟨"j", "d", "*", "t", "p", "DOMAIN", .IN_PROGRESS, 0, none, none⟩ 7 =
      change_success_status
        ⟨"j", "d", "*", "t", "p", "DOMAIN", .IN_PROGRESS, 0, none, none⟩ 7 ∧
     (close_job ⟨"j", "d", "*", "t", "p", "DOMAIN", .IN_PROGRESS, 0, none, none⟩
        7).status = .SUCCESS)
    ∧ close_job ⟨"j", "d", "*", "t", "p", "DOMAIN", .FAILURE, 0, none, some "x"⟩ 7 =
      ⟨"j", "d", "*", "t", "p", "DOMAIN", .FAILURE, 0, some 7, some "x"⟩
    ∧ close_job ⟨"j", "d", "*", "t", "p", "DOMAIN", .SUCCESS, 0, some 3, none⟩ 7 =
      ⟨"j", "d", "*", "t", "p", "DOMAIN", .SUCCESS, 0, some 3, none⟩
    ∧ (sync_service_accounts_job
        ⟨"j", "d", "*", "t", "p", "DOMAIN", .PENDING, 0, none, none⟩
        none (.error "boom") 7).status.isTerminal = true
    ∧ (sync_service_accounts_job
        ⟨"j", "d", "*", "t", "p", "DOMAIN", .PENDING, 0, none, none⟩
        none (.error "boom") 7).finished_at = some 7 := by
  refine ⟨?_, ?_, ?_, ?_, ?_⟩
  · exact C5_close_job_on_every_path.1 _ 7 (by decide)
  · exact C5_close_job_on_every_path.2.1
      ⟨"j", "d", "*", "t", "p", "DOMAIN", .FAILURE, 0, none, some "x"⟩ 7 (by decide)
  · exact C5_close_job_on_every_path.2.2.1
      ⟨"j", "d", "*", "t", "p", "DOMAIN", .SUCCESS, 0, some 3, none⟩ 7
      (by decide) (by decide)
  · exact (C5_close_job_on_every_path.2.2.2.2
      ⟨"j", "d", "*", "t", "p", "DOMAIN", .PENDING, 0, none, none⟩
      none "boom" 7 (by decide)).1
  · exact (C5_close_job_on_every_path.2.2.2.2
      ⟨"j", "d", "*", "t", "p", "DOMAIN", .PENDING, 0, none, none⟩
      none "boom" 7 (by decide)).2

/-- Counterexample to C6 as stated: the loop completes without exception,
the post-loop check finds the job FAILURE (an external failure write
occurred mid-run), yet the job is not transitioned to CANCELED — under the
spec's terminal-state immutability the cancel call leaves it FAILURE. -/
theorem C6_failure_stays_failure_counterexample :
    is_job_failed (applyJobOp (.mark_error "boom")
      (change_in_progress_status
        ⟨"job-1", "dom", "*", "ta", "p", "DOMAIN", .PENDING, 0, none, none⟩) 7) = true
    ∧ (sync_service_accounts_job
        ⟨"job-1", "dom", "*", "ta", "p", "DOMAIN", .PENDING, 0, none, none⟩
        (some (.mark_error "boom")) (.ok ()) 7).status = .FAILURE
    ∧ (sync_service_accounts_job
        ⟨"job-1", "dom", "*", "ta", "p", "DOMAIN", .PENDING, 0, none, none⟩
        (some (.mark_error "boom")) (.ok ()) 7).status ≠ .CANCELED := by
  refine ⟨by decide, by decide, by decide⟩

/-- Claim C6 amended: after the loop over all discovered records completes
without exception, if the post-loop check finds the job CANCELED or
FAILURE the cancel transition is invoked and the job is not marked SUCCESS
— its status stays as found (CANCELED stays CANCELED; FAILURE stays
FAILURE under terminal-state immutability); otherwise the job is marked
SUCCESS. -/
theorem C6_post_loop_terminal_check (j0 : JobRec) (midOp : Option JobOp)
    (now : Int) (h0 : j0.status = .PENDING) :
    ((is_job_failed (match midOp with
        | some op => applyJobOp op (change_in_progress_status j0) now
        | none => change_in_progress_status j0) = true) →
      (sync_service_accounts_job j0 midOp (.ok ()) now).status =
        (match midOp with
          | some op => applyJobOp op (change_in_progress_status j0) now
          | none => change_in_progress_status j0).status ∧
      (sync_service_accounts_job j0 midOp (.ok ()) now).status ≠ .SUCCESS)
    ∧ ((is_job_failed (match midOp with
        | some op => applyJobOp op (change_in_progress_status j0) now
        | none => change_in_progress_status j0) = false) →
      (sync_service_accounts_job j0 midOp (.ok ()) now).status = .SUCCESS) := by
  rcases midOp with _ | op
  · constructor
    · intro h
      exfalso
      simp [is_job_failed, change_in_progress_status, h0,
        JobStatus.isTerminal] at h
    · intro h
      simp [sync_service_accounts_job, sync_body, is_job_failed, h0,
        change_in_progress_status, change_success_status, close_job,
        JobStatus.isTerminal]
  · cases op <;> constructor <;> intro h <;>
      simp_all [sync_service_accounts_job, sync_body, is_job_failed, applyJobOp,
        change_in_progress_status, change_success_status, change_error_status,
        change_canceled_status, close_job, JobStatus.isTerminal, h0]

/-- Witness for the amended C6 at concrete inputs: an external mid-run
cancel leaves the completed run CANCELED and not SUCCESS, and an
undisturbed run is marked SUCCESS. -/
theorem C6_post_loop_terminal_check_witness :
    ((sync_service_accounts_job
        ⟨"j", "d", "*", "t", "p", "DOMAIN", .PENDING, 0, none, none⟩
        (some .mark_canceled) (.ok ()) 7).status =
      (applyJobOp .mark_canceled
        (change_in_progress_status
          ⟨"j", "d", "*", "t", "p", "DOMAIN", .PENDING, 0, none, none⟩) 7).status ∧
     (sync_service_accounts_job
        ⟨"j", "d", "*", "t", "p", "DOMAIN", .PENDING, 0, none, none⟩
        (some .mark_canceled) (.ok ()) 7).status ≠ .SUCCESS)
    ∧ (sync_service_accounts_job
        ⟨"j", "d", "*", "t", "p", "DOMAIN", .PENDING, 0, none, none⟩
        none (.ok ()) 7).status = .SUCCESS := by
  constructor
  · exact (C6_post_loop_terminal_check
      ⟨"j", "d", "*", "t", "p", "DOMAIN", .PENDING, 0, none, none⟩
      (some .mark_canceled) 7 (by decide)).1 (by decide)
  · exact (C6_post_loop_terminal_check
      ⟨"j", "d", "*", "t", "p", "DOMAIN", .PENDING, 0, none, none⟩
      none 7 (by decide)).2 (by decide)

/-- Claim C2 fails on the code: resolving an existing workspace whose
references list is empty never appends the provider id, because the append
is guarded by the references list being non-empty; and because the removal
pass also covers the workspace just updated, even a workspace with a
non-empty references list loses the id again.  Evaluated at concrete
inputs: in both runs the resolved workspace ends without the discovered
reference id among its references, although the claim requires
membership. -/
theorem C2_reference_id_not_kept :
    ((create_workspace "dom" "ta-1" ⟨"ws-a", "r1"⟩ 5 "blue" 0
        [⟨"ws-0", "dom", "ws-a", [], none, false, none, []⟩]).1.references = []
     ∧ ∀ w ∈ (create_workspace "dom" "ta-1" ⟨"ws-a", "r1"⟩ 5 "blue" 0
        [⟨"ws-0", "dom", "ws-a", [], none, false, none, []⟩]).2.1,
        "r1" ∉ w.references)
    ∧ (∀ w ∈ (create_workspace "dom" "ta-1" ⟨"ws-a", "r1"⟩ 5 "blue" 0
        [⟨"ws-0", "dom", "ws-a", ["x"], none, false, none, []⟩]).2.1,
        "r1" ∉ w.references) := by
  refine ⟨⟨by decide, by decide⟩, by decide⟩

/-- Claim C3: when _create_service_account matches an existing service
account, the applied update sets exactly trusted_account_id and
last_synced_at; every other field, the name included, is unchanged even
when the discovered name differs — the name change is computed but the
update dict is rebound before being applied. -/
theorem C3_service_account_update_overwrite
    (r : DiscoveredRecord) (proj : ProjectRec) (tid : String)
    (tsid : Option String) (provider : String) (now : Int)
    (validateOk : Option String → List (String × String) → Bool) (n : Nat)
    (tbl : List ServiceAccountRec) (secrets : List SecretRec)
    (sa : ServiceAccountRec) (rest : List ServiceAccountRec)
    (hm : tbl.filter (fun x => x.provider == provider &&
        x.reference_id == r.resource_id && x.is_managed &&
        x.domain_id == proj.domain_id && x.workspace_id == proj.workspace_id &&
        x.project_id == proj.project_id) = sa :: rest)
    (hsd : r.secret_data = [])
    (hname : sa.name ≠ r.name) :
    ∃ out, create_service_account r proj tid tsid provider now validateOk n
        tbl secrets = .ok out ∧
      out.1.name = sa.name ∧
      out.1.trusted_account_id = some tid ∧
      out.1.last_synced_at = some now ∧
      out.1.service_account_id = sa.service_account_id ∧
      out.1.provider = sa.provider ∧
      out.1.reference_id = sa.reference_id ∧
      out.1.is_managed = sa.is_managed ∧
      out.1.domain_id = sa.domain_id ∧
      out.1.workspace_id = sa.workspace_id ∧
      out.1.project_id = sa.project_id ∧
      out.1.data = sa.data ∧
      out.1.tags = sa.tags ∧
      out.1.schema_id = sa.schema_id ∧
      out.1.secret_id = sa.secret_id := by
  have hred : create_service_account r proj tid tsid provider now validateOk n
      tbl secrets = .ok (service_account_match_update sa r.name tid now,
        tbl.map (fun x => if x.service_account_id == sa.service_account_id
          then service_account_match_update sa r.name tid now else x),
        secrets, n) := by
    simp only [create_service_account, hm, hsd]
    simp
  refine ⟨_, hred, ?_, ?_, ?_, ?_, ?_, ?_, ?_, ?_, ?_, ?_, ?_, ?_, ?_, ?_⟩ <;>
    simp [service_account_match_update]

/-- Witness for C3 at concrete inputs: a matched service account whose
discovered name differs keeps its stored name; only trusted_account_id and
last_synced_at change. -/
theorem C3_service_account_update_overwrite_witness :
    ∃ out, create_service_account
        ⟨"acct-1-renamed", "r1", [], [], [], [], none⟩
        ⟨"project-0", "dom", "ws-1", "PRIVATE", "acct-1", "r1", true, none,
          some "ta", some 5⟩
        "ta" (some "ts") "aws" 9 (fun _ _ => true) 3
        [⟨"sa-0", "aws", "r1", true, "dom", "ws-1", "project-0", "acct-1",
          [], [], some "old-ta", none, none, some 5⟩] [] = .ok out ∧
      out.1.name = "acct-1" ∧
      out.1.trusted_account_id = some "ta" ∧
      out.1.last_synced_at = some 9 ∧
      out.1.service_account_id = "sa-0" ∧
      out.1.provider = "aws" ∧
      out.1.reference_id = "r1" ∧
      out.1.is_managed = true ∧
      out.1.domain_id = "dom" ∧
      out.1.workspace_id = "ws-1" ∧
      out.1.project_id = "project-0" ∧
      out.1.data = [] ∧
      out.1.tags = [] ∧
      out.1.schema_id = none ∧
      out.1.secret_id = none := by
  exact C3_service_account_update_overwrite
    ⟨"acct-1-renamed", "r1", [], [], [], [], none⟩
    ⟨"project-0", "dom", "ws-1", "PRIVATE", "acct-1", "r1", true, none,
      some "ta", some 5⟩
    "ta" (some "ts") "aws" 9 (fun _ _ => true) 3
    [⟨"sa-0", "aws", "r1", true, "dom", "ws-1", "project-0", "acct-1",
      [], [], some "old-ta", none, none, some 5⟩] []
    ⟨"sa-0", "aws", "r1", true, "dom", "ws-1", "project-0", "acct-1",
      [], [], some "old-ta", none, none, some 5⟩ []
    (by decide) rfl (by decide)

/-- Claim C10: when _create_project matches an existing project and a
parent project group was derived from the location, the applied update
overwrites project_group_id with the derived group, in addition to setting
the name to the discovered name, trusted_account_id and last_synced_at,
while keeping the project's identity. -/
theorem C10_project_update_reparents
    (r : DiscoveredRecord) (domain_id workspace_id tid g : String) (now : Int)
    (n : Nat) (tbl : List ProjectRec) (p : ProjectRec) (rest : List ProjectRec)
    (hm : tbl.filter (fun x => x.domain_id == domain_id &&
        x.workspace_id == workspace_id && x.project_type == "PRIVATE" &&
        x.reference_id == r.resource_id && x.is_managed) = p :: rest) :
    (create_project r domain_id workspace_id tid (some g) now n
        tbl).1.project_group_id = some g
    ∧ (create_project r domain_id workspace_id tid (some g) now n
        tbl).1.name = r.name
    ∧ (create_project r domain_id workspace_id tid (some g) now n
        tbl).1.trusted_account_id = some tid
    ∧ (create_project r domain_id workspace_id tid (some g) now n
        tbl).1.last_synced_at = some now
    ∧ (create_project r domain_id workspace_id tid (some g) now n
        tbl).1.project_id = p.project_id := by
  have hred : (create_project r domain_id workspace_id tid (some g) now n tbl).1
      = { p with
          name := if p.name != r.name then r.name else p.name,
          project_group_id := some g,
          trusted_account_id := some tid,
          last_synced_at := some now } := by
    simp only [create_project, hm]
  rw [hred]
  refine ⟨rfl, ?_, rfl, rfl, rfl⟩
  by_cases hn : p.name = r.name
  · simp [hn]
  · simp [hn]

/-- Witness for C10 at concrete inputs: a re-synced project whose location
now derives a parent group is re-parented to it. -/
theorem C10_project_update_reparents_witness :
    (create_project ⟨"acct-1", "r1", [], [], [], [], none⟩
        "dom" "ws-1" "ta" (some "pg-7") 9 3
        [⟨"project-0", "dom", "ws-1", "PRIVATE", "acct-1", "r1", true, none,
          none, some 5⟩]).1.project_group_id = some "pg-7"
    ∧ (create_project ⟨"acct-1", "r1", [], [], [], [], none⟩
        "dom" "ws-1" "ta" (some "pg-7") 9 3
        [⟨"project-0", "dom", "ws-1", "PRIVATE", "acct-1", "r1", true, none,
          none, some 5⟩]).1.name = "acct-1"
    ∧ (create_project ⟨"acct-1", "r1", [], [], [], [], none⟩
        "dom" "ws-1" "ta" (some "pg-7") 9 3
        [⟨"project-0", "dom", "ws-1", "PRIVATE", "acct-1", "r1", true, none,
          none, some 5⟩]).1.trusted_account_id = some "ta"
    ∧ (create_project ⟨"acct-1", "r1", [], [], [], [], none⟩
        "dom" "ws-1" "ta" (some "pg-7") 9 3
        [⟨"project-0", "dom", "ws-1", "PRIVATE", "acct-1", "r1", true, none,
          none, some 5⟩]).1.last_synced_at = some 9
    ∧ (create_project ⟨"acct-1", "r1", [], [], [], [], none⟩
        "dom" "ws-1" "ta" (some "pg-7") 9 3
        [⟨"project-0", "dom", "ws-1", "PRIVATE", "acct-1", "r1", true, none,
          none, some 5⟩]).1.project_id = "project-0" := by
  exact C10_project_update_reparents
    ⟨"acct-1", "r1", [], [], [], [], none⟩ "dom" "ws-1" "ta" "pg-7" 9 3
    [⟨"project-0", "dom", "ws-1", "PRIVATE", "acct-1", "r1", true, none,
      none, some 5⟩]
    ⟨"project-0", "dom", "ws-1", "PRIVATE", "acct-1", "r1", true, none,
      none, some 5⟩ [] (by decide)

/-- Claim C9: for a DOMAIN-scoped account without single_workspace_id, a
record whose derived location is empty is skipped entirely — the inventory
is returned unchanged, no error is raised, and the loop continues with the
remaining records. -/
theorem C9_empty_location_record_skipped
    (ctx : SyncCtx) (st : Inventory) (r : DiscoveredRecord)
    (rest : List DiscoveredRecord)
    (hrg : ctx.resource_group = "DOMAIN")
    (hsw : ctx.sync_options.single_workspace_id = none)
    (hloc : get_location r.location ctx.resource_group ctx.sync_options = []) :
    process_record ctx st r = .ok st
    ∧ sync_records ctx st (r :: rest) = sync_records ctx st rest := by
  have hloc' : get_location r.location "DOMAIN" ctx.sync_options = [] := by
    rw [← hrg]
    exact hloc
  have h1 : process_record ctx st r = .ok st := by
    simp only [process_record, hrg, hsw, hloc']
    simp
  exact ⟨h1, by simp [sync_records, h1]⟩

/-- Witness for C9 at concrete inputs: an empty-location record against a
concrete inventory changes nothing and the loop moves on. -/
theorem C9_empty_location_record_skipped_witness :
    process_record
      ⟨"dom", "*", "ta", some "ts", "aws", "DOMAIN", ⟨false, none⟩, 5, "blue",
        fun _ _ => true⟩
      ⟨[], [], [], [], [], 0⟩
      ⟨"acct-1", "r1", [], [], [], [], none⟩ =
      .ok ⟨[], [], [], [], [], 0⟩
    ∧ sync_records
      ⟨"dom", "*", "ta", some "ts", "aws", "DOMAIN", ⟨false, none⟩, 5, "blue",
        fun _ _ => true⟩
      ⟨[], [], [], [], [], 0⟩
      [⟨"acct-1", "r1", [], [], [], [], none⟩] =
      sync_records
        ⟨"dom", "*", "ta", some "ts", "aws", "DOMAIN", ⟨false, none⟩, 5, "blue",
          fun _ _ => true⟩
        ⟨[], [], [], [], [], 0⟩ [] := by
  exact C9_empty_location_record_skipped
    ⟨"dom", "*", "ta", some "ts", "aws", "DOMAIN", ⟨false, none⟩, 5, "blue",
      fun _ _ => true⟩
    ⟨[], [], [], [], [], 0⟩
    ⟨"acct-1", "r1", [], [], [], [], none⟩ [] rfl rfl rfl
